import Mathlib

/-!
Shallow embedding of `src/S3manager.py`.

The file defines three components, mirroring the three Python classes:

* `ConfigParser.get_config_as_dictionary` — embedded as `get_config_as_dictionary`
  over an explicit `configparser` state (`IniState`): the list of entries of the
  implicit `DEFAULT` section plus the list of named sections.  `parser.read`
  accumulates into the existing parser state; this is embedded by `readIni`.
* `FileManager.read_file` / `FileManager.write_file` — embedded as `read_file` /
  `write_file` over an explicit file-system map `FileSystem`.
* `S3manager` — the response handling of `upload_file` / `download_file` is
  embedded as `handleUploadResponse` / `handleDownloadResponse`; the lazy
  auth-token resolution (`__set_up_auth_token` plus the `if not
  self.__auth_token` guard) is embedded as `set_up_auth_token` and `s3Step`,
  with `s3Run` folding a sequence of calls and counting configuration parses.

Python machine-level details are embedded explicitly: exceptions become
`Except PyErr`, Python truthiness of the token field becomes `pyTruthy`,
`str.lower`/`str.strip` become the character-list functions `pyLower`/`pyStrip`,
and the substring test `sub in s` becomes `strContains`.
-/

deriving instance DecidableEq for Except

/-- The Python exception classes raised by the program: `TypeError`,
`FileNotFoundError`, `KeyError`, `ValueError`. -/
inductive PyErr where
  | typeError
  | fileNotFoundError
  | keyError
  | valueError
deriving DecidableEq

/-- Python values stored in the parsed configuration dictionary and in the
`__auth_token` field: strings, or booleans produced by the coercion in
`get_config_as_dictionary`. -/
inductive PyVal where
  | str (s : String)
  | bool (b : Bool)
deriving DecidableEq

/-- Embedding of Python `str.lower` (character-wise lowering). -/
def pyLower (s : String) : String :=
  ⟨s.data.map Char.toLower⟩

/-- Embedding of Python `str.strip` with no argument: remove leading and
trailing whitespace. -/
def pyStrip (s : String) : String :=
  ⟨((s.data.dropWhile Char.isWhitespace).reverse.dropWhile Char.isWhitespace).reverse⟩

/-- The `convert` lambda of `ConfigParser.get_config_as_dictionary`
(src/S3manager.py lines 35-36): `True` if `(val.lower()).strip() == 'true'`,
`False` if it equals `'false'`, otherwise the value unchanged. -/
def convert (val : String) : PyVal :=
  if pyStrip (pyLower val) = "true" then .bool true
  else if pyStrip (pyLower val) = "false" then .bool false
  else .str val

/-- The state of a `configparser.ConfigParser`: the entries of the implicit
`DEFAULT` section, and the named sections with their entries. -/
structure IniState where
  defaults : List (String × String)
  sections : List (String × List (String × String))
deriving DecidableEq

/-- Python `dict` update used by `configparser`: entries of `old` overridden
by entries of `new_` (an entry of `old` survives only when its key does not
occur in `new_`). -/
def mergeKVs (old new_ : List (String × String)) : List (String × String) :=
  old.filter (fun p => (List.lookup p.1 new_).isNone) ++ new_

/-- How `parser.read` updates one already-present section when re-reading:
if the incoming file has a section of the same name, its entries override. -/
def secUpdate (cnew : List (String × List (String × String)))
    (n : String) (kvs : List (String × String)) : List (String × String) :=
  match List.lookup n cnew with
  | some kvs2 => mergeKVs kvs kvs2
  | none => kvs

/-- How `parser.read` combines the sections already in the parser with the
sections of an incoming file: existing sections are updated in place, new
sections are appended. -/
def updateSections (old cnew : List (String × List (String × String))) :
    List (String × List (String × String)) :=
  old.map (fun p => (p.1, secUpdate cnew p.1 p.2)) ++
    cnew.filter (fun q => (List.lookup q.1 old).isNone)

/-- Embedding of `self.parser.read(config_file_path)` (src/S3manager.py line
26): reading a nonexistent path (`none`) is a silent no-op; reading an existing
file merges its contents into the accumulated parser state. -/
def readIni (st : IniState) (f : Option IniState) : IniState :=
  match f with
  | none => st
  | some c => ⟨mergeKVs st.defaults c.defaults, updateSections st.sections c.sections⟩

/-- The parser state of a freshly constructed `ConfigParser` (line 11). -/
def emptyIni : IniState := ⟨[], []⟩

/-- The dictionary produced by `get_config_as_dictionary`: section name to
(key to converted value), `DEFAULT` included. -/
abbrev ConfigDict := List (String × List (String × PyVal))

/-- Embedding of the body of `ConfigParser.get_config_as_dictionary`
(src/S3manager.py lines 26-44) after `self.parser.read`: `size_check =
self.parser.items()` has length `1 + number of named sections` (the `DEFAULT`
section is always present), and `len(size_check) <= 1` raises
`FileNotFoundError`; otherwise every section (DEFAULT first, as iterated by
`self.parser.items()`) is turned into a dict — `dict(self.parser.items(name))`
merges the DEFAULT entries under the section's own entries — with `convert`
applied to every value. -/
def get_config_as_dictionary (st : IniState) : Except PyErr ConfigDict :=
  if st.sections.length + 1 ≤ 1 then
    .error .fileNotFoundError
  else
    .ok (("DEFAULT", st.defaults.map (fun p => (p.1, convert p.2))) ::
      st.sections.map (fun s =>
        (s.1, (mergeKVs st.defaults s.2).map (fun p => (p.1, convert p.2)))))

/-- `ConfigParser().get_config_as_dictionary(path)` on a freshly constructed
instance: read the file (possibly missing) into an empty parser and process. -/
def freshParse (f : Option IniState) : Except PyErr ConfigDict :=
  get_config_as_dictionary (readIni emptyIni f)

/-- One `get_config_as_dictionary` call on an instance whose accumulated
parser state is `st`: the call first runs `self.parser.read` (mutating the
instance's parser) and then processes the accumulated state.  Returns the new
parser state and the call's result. -/
def parseCall (st : IniState) (f : Option IniState) :
    IniState × Except PyErr ConfigDict :=
  (readIni st f, get_config_as_dictionary (readIni st f))

/-- Total number of key-value entries of a configuration file, counting the
implicit `DEFAULT` section (the quantity the specification's "fewer than two
total entries" heuristic speaks about). -/
def totalEntries (c : IniState) : Nat :=
  c.defaults.length + (c.sections.map (fun s => s.2.length)).sum

/-- `FileManager.__supported_types` (src/S3manager.py line 61). -/
def supported_types : List String := ["csv", "txt"]

/-- Executable check that `s` starts with `sub` (helper for the substring
test). -/
def listPre : List Char → List Char → Bool
  | [], _ => true
  | _ :: _, [] => false
  | a :: s, b :: t => a == b && listPre s t

/-- Executable substring containment on character lists: some tail of `l`
starts with `sub`. -/
def listContains : List Char → List Char → Bool
  | sub, [] => listPre sub []
  | sub, c :: t => listPre sub (c :: t) || listContains sub t

/-- Embedding of Python's `sub in s` substring test on strings. -/
def strContains (s sub : String) : Bool :=
  listContains sub.data s.data

/-- The extension gate of `FileManager.read_file` / `write_file`
(src/S3manager.py lines 70-75 and 100-106): the flag `type_supported` is set
when any entry of `__supported_types` occurs in `file_name` as a substring. -/
def typeSupported (file_name : String) : Bool :=
  supported_types.any (fun t => strContains file_name t)

/-- `file_path = "".join((file_location, "\\" if len(file_location) > 0 else
"", file_name))` (src/S3manager.py lines 76 and 107). -/
def filePath (file_location file_name : String) : String :=
  file_location ++ (if file_location.length > 0 then "\\" else "") ++ file_name

/-- The local file system: a map from full paths to the raw byte content
stored on disk (as text).  The map has no directory structure, so every
modeled location is an existing, writable directory; the `FileNotFoundError`
branches that depend on the host directory tree are represented by an absent
path on read, and are not reachable on write (see `write_file`). -/
abbrev FileSystem := String → Option String

/-- Universal-newline decoding performed by Python's text-mode `open(p, "r")`:
every `"\r\n"` pair and every lone `'\r'` in the stored text is read back as
`'\n'`. -/
def textDecode : List Char → List Char
  | [] => []
  | '\r' :: '\n' :: t => '\n' :: textDecode t
  | '\r' :: t => '\n' :: textDecode t
  | c :: t => c :: textDecode t

/-- Newline encoding performed by Python's text-mode `open(p, "w")` with the
default `newline=None`: every `'\n'` written is translated to `os.linesep`
(`"\n"` on POSIX, `"\r\n"` on Windows). -/
def textEncode (linesep : List Char) : List Char → List Char
  | [] => []
  | '\n' :: t => linesep ++ textEncode linesep t
  | c :: t => c :: textEncode linesep t

/-- Text read from a raw stored string, as `open(p, "r")` delivers it. -/
def pyTextRead (raw : String) : String :=
  ⟨textDecode raw.data⟩

/-- Raw stored string produced by writing `content` through `open(p, "w")`
on a system whose `os.linesep` is `linesep`. -/
def pyTextWrite (linesep content : String) : String :=
  ⟨textEncode linesep.data content.data⟩

/-- Embedding of `FileManager.read_file` (src/S3manager.py lines 63-90):
raise `TypeError` unless the name passes the extension gate; open the joined
path in text mode and return its whole content after universal-newline
decoding (`readlines` followed by `"".join` is the identity on the decoded
text); raise `FileNotFoundError` when the path is absent — a missing file and
a missing directory raise the same `FileNotFoundError`, so both are modeled
by an absent path. -/
def read_file (fs : FileSystem) (file_name : String) (file_location : String) :
    Except PyErr String :=
  if typeSupported file_name then
    match fs (filePath file_location file_name) with
    | some raw => .ok (pyTextRead raw)
    | none => .error .fileNotFoundError
  else
    .error .typeError

/-- Embedding of `FileManager.write_file` (src/S3manager.py lines 92-119):
raise `TypeError` unless the name passes the extension gate; otherwise write
`content` at the joined path in text mode — storing it with `'\n'` translated
to the system's `os.linesep` — and return `{result: result}` where the local
variable `result` holds the string `"successful"`, that is, the dict
`{"successful": "successful"}`.  The `FileNotFoundError` branch (lines
113-115) fires only when the location names a directory the host file system
lacks; the path-map model has no directory structure, so it treats every
location as existing and that branch is unreachable here (theorems about the
written file therefore presuppose an existing location). -/
def write_file (fs : FileSystem) (linesep : String)
    (file_name file_location content : String) :
    Except PyErr (FileSystem × List (String × String)) :=
  if typeSupported file_name then
    .ok (fun p => if p = filePath file_location file_name
           then some (pyTextWrite linesep content) else fs p,
         [("successful", "successful")])
  else
    .error .typeError

/-- Writing a name and reading the same name back from the same location:
the composition the round-trip property speaks about. -/
def writeThenRead (fs : FileSystem) (linesep file_name file_location content : String) :
    Except PyErr String :=
  match write_file fs linesep file_name file_location content with
  | .ok (fs', _) => read_file fs' file_name file_location
  | .error e => .error e

/-- An HTTP response as the S3 client sees it: the status code and the JSON
body decoded to a flat string-to-string object (the only fields the code
touches are `errorType`, `errorMessage` and `Body`). -/
structure HttpResponse where
  status : Nat
  body : List (String × String)
deriving DecidableEq

/-- Python's `"k" in dict` membership test on a decoded JSON object. -/
def hasKey (l : List (String × String)) (k : String) : Bool :=
  (List.lookup k l).isSome

/-- Embedding of the response handling of `S3manager.upload_file`
(src/S3manager.py lines 159-166): on status 200, `Failure` with
`response["errorMessage"]` when `"errorType" in response` (a `KeyError` when
`errorMessage` is absent), else `{"result": "success"}`; on any other status
the function falls through and returns Python `None` (embedded as
`.ok none`). -/
def handleUploadResponse (r : HttpResponse) : Except PyErr (Option (List (String × String))) :=
  if r.status = 200 then
    if hasKey r.body "errorType" then
      match List.lookup "errorMessage" r.body with
      | some msg => .ok (some [("result", "fail"), ("reason", msg)])
      | none => .error .keyError
    else
      .ok (some [("result", "success")])
  else
    .ok none

/-- Embedding of the response handling of `S3manager.download_file`
(src/S3manager.py lines 181-188): like the upload case, except that the
success branch returns `{"result": "success", "data": response["Body"]}` —
a `KeyError` when `Body` is absent; on any other status the function falls
through and returns Python `None`. -/
def handleDownloadResponse (r : HttpResponse) : Except PyErr (Option (List (String × String))) :=
  if r.status = 200 then
    if hasKey r.body "errorType" then
      match List.lookup "errorMessage" r.body with
      | some msg => .ok (some [("result", "fail"), ("reason", msg)])
      | none => .error .keyError
    else
      match List.lookup "Body" r.body with
      | some b => .ok (some [("result", "success"), ("data", b)])
      | none => .error .keyError
  else
    .ok none

/-- The mutable state of an `S3manager` instance: its `__auth_token` field. -/
structure S3State where
  auth_token : Option PyVal
deriving DecidableEq

/-- Python truthiness of the `__auth_token` field as tested by
`if not self.__auth_token`: `None`, the empty string and `False` are falsy. -/
def pyTruthy : Option PyVal → Bool
  | none => false
  | some (.str s) => !(s == "")
  | some (.bool b) => b

/-- `S3manager.__init__` (src/S3manager.py lines 123-125):
`kwargs.get('auth_token') or None` turns an absent or empty token into
`None`. -/
def S3init (auth_token : Option String) : S3State :=
  match auth_token with
  | some s => if s == "" then ⟨none⟩ else ⟨some (.str s)⟩
  | none => ⟨none⟩

/-- Embedding of `S3manager.__set_up_auth_token` as called from `upload_file`
/ `download_file`, i.e. with `token_value = None` (src/S3manager.py lines
127-141): parse the fixed configuration path with a fresh `ConfigParser`
(`cfgFile` is that path's content, `none` when the file does not exist), then
index `['authorizers']['auth-token']`; a `FileNotFoundError` from the parse is
re-raised, a missing key raises `KeyError`. -/
def set_up_auth_token (cfgFile : Option IniState) : Except PyErr PyVal :=
  match get_config_as_dictionary (readIni emptyIni cfgFile) with
  | .error e => .error e
  | .ok d =>
    match List.lookup "authorizers" d with
    | none => .error .keyError
    | some sec =>
      match List.lookup "auth-token" sec with
      | none => .error .keyError
      | some v => .ok v

/-- Which of the two remote operations a call performs. -/
inductive CallKind where
  | upload
  | download
deriving DecidableEq

/-- One remote-operation call: its kind, and the HTTP response the fixed
endpoint returns to it (bucket and object names do not influence the
client-side control flow). -/
structure S3Call where
  kind : CallKind
  resp : HttpResponse
deriving DecidableEq

/-- One `upload_file` / `download_file` call on an `S3manager` instance
(src/S3manager.py lines 143-188): when the stored token is falsy the call
first runs `__set_up_auth_token` (one configuration parse; on failure the
exception aborts the call and the state is unchanged), then the HTTP request
is issued and the response handled.  Returns the new instance state, the
number of configuration parses the call triggered, and the call's outcome. -/
def s3Step (cfgFile : Option IniState) (st : S3State) (c : S3Call) :
    S3State × Nat × Except PyErr (Option (List (String × String))) :=
  let handled := match c.kind with
    | .upload => handleUploadResponse c.resp
    | .download => handleDownloadResponse c.resp
  if pyTruthy st.auth_token then
    (st, 0, handled)
  else
    match set_up_auth_token cfgFile with
    | .error e => (st, 1, .error e)
    | .ok v => (⟨some v⟩, 1, handled)

/-- A sequence of calls on one `S3manager` instance: final state and total
number of configuration parses triggered. -/
def s3Run (cfgFile : Option IniState) : S3State → List S3Call → S3State × Nat
  | st, [] => (st, 0)
  | st, c :: cs =>
    ((s3Run cfgFile (s3Step cfgFile st c).1 cs).1,
     (s3Step cfgFile st c).2.1 + (s3Run cfgFile (s3Step cfgFile st c).1 cs).2)

/-- `sub` occurs somewhere inside `s` (the specification's "substring match
anywhere in the name"). -/
def SubstrOf (sub s : String) : Prop :=
  ∃ pre post : String, s = pre ++ (sub ++ post)

/-- All raw (pre-coercion) values a configuration file carries: the values of
the implicit DEFAULT section and of every named section. -/
def rawValues (c : IniState) : List String :=
  c.defaults.map Prod.snd ++ (c.sections.map (fun s => s.2.map Prod.snd)).flatten

/-! ### Helper lemmas about association-list lookup and the merge operations -/

theorem lookup_append_or {β : Type} (k : String) (l₁ l₂ : List (String × β)) :
    List.lookup k (l₁ ++ l₂) = (List.lookup k l₁).or (List.lookup k l₂) := by
  induction l₁ with
  | nil => simp [List.lookup]
  | cons a t ih => cases h : k == a.1 <;> simp [List.lookup, h, ih]

theorem lookup_isSome_of_mem {β : Type} {k : String} {v : β} {l : List (String × β)}
    (h : (k, v) ∈ l) : (List.lookup k l).isSome = true := by
  induction l with
  | nil => simp at h
  | cons a t ih =>
    rcases List.mem_cons.mp h with h1 | h1
    · simp [List.lookup, ← h1]
    · cases hk : k == a.1 <;> simp [List.lookup, hk, ih h1]

theorem lookup_eq_of_nodup {β : Type} {l : List (String × β)} {k : String} {v : β}
    (hnd : (l.map Prod.fst).Nodup) (hm : (k, v) ∈ l) : List.lookup k l = some v := by
  induction l with
  | nil => simp at hm
  | cons a t ih =>
    rw [List.map_cons, List.nodup_cons] at hnd
    rcases List.mem_cons.mp hm with h1 | h1
    · rw [← h1]; simp [List.lookup]
    · have hk : (k == a.1) = false := by
        apply beq_eq_false_iff_ne.mpr
        intro he
        exact hnd.1 (he ▸ List.mem_map.mpr ⟨(k, v), h1, rfl⟩)
      simp [List.lookup, hk, ih hnd.2 h1]

theorem lookup_map_snd {β : Type} (k : String) (l : List (String × β)) (g : String → β → β) :
    List.lookup k (l.map (fun p => (p.1, g p.1 p.2))) = (List.lookup k l).map (g k) := by
  induction l with
  | nil => simp [List.lookup]
  | cons a t ih =>
    cases hk : k == a.1 with
    | false => simp [List.lookup, hk, ih]
    | true =>
      have : k = a.1 := eq_of_beq hk
      simp [List.lookup, hk, this]

theorem filter_lookup_self_eq_nil {β : Type} (b : List (String × β)) :
    b.filter (fun p => (List.lookup p.1 b).isNone) = [] := by
  rw [List.filter_eq_nil_iff]
  intro p hp
  have hs := lookup_isSome_of_mem (k := p.1) (v := p.2) hp
  cases h : List.lookup p.1 b with
  | none => rw [h] at hs; simp at hs
  | some w => simp [h]

theorem mem_of_mem_mergeKVs {p : String × String} {a b : List (String × String)}
    (h : p ∈ mergeKVs a b) : p ∈ a ∨ p ∈ b := by
  unfold mergeKVs at h
  rcases List.mem_append.mp h with h | h
  · exact Or.inl (List.mem_of_mem_filter h)
  · exact Or.inr h

theorem mergeKVs_self (l : List (String × String)) : mergeKVs l l = l := by
  unfold mergeKVs
  rw [filter_lookup_self_eq_nil, List.nil_append]

theorem mergeKVs_absorb (a b : List (String × String)) :
    mergeKVs (mergeKVs a b) b = mergeKVs a b := by
  unfold mergeKVs
  rw [List.filter_append, filter_lookup_self_eq_nil, List.append_nil,
    List.filter_filter]
  simp

theorem secUpdate_idem (cs : List (String × List (String × String)))
    (n : String) (kvs : List (String × String)) :
    secUpdate cs n (secUpdate cs n kvs) = secUpdate cs n kvs := by
  cases h : List.lookup n cs with
  | none => simp [secUpdate, h]
  | some k2 => simp [secUpdate, h, mergeKVs_absorb]

theorem lookup_updateSections_isSome (old cs : List (String × List (String × String)))
    {q : String × List (String × String)} (hq : q ∈ cs) :
    (List.lookup q.1 (updateSections old cs)).isSome = true := by
  unfold updateSections
  rw [lookup_append_or]
  cases h : List.lookup q.1 old with
  | some v =>
    have hmap : List.lookup q.1 (old.map (fun p => (p.1, secUpdate cs p.1 p.2))) =
        some (secUpdate cs q.1 v) := by
      rw [lookup_map_snd, h]; rfl
    simp [hmap, Option.or]
  | none =>
    have hqf : q ∈ cs.filter (fun q' => (List.lookup q'.1 old).isNone) :=
      List.mem_filter.mpr ⟨hq, by simp [h]⟩
    have hs := lookup_isSome_of_mem (k := q.1) (v := q.2) hqf
    cases h2 : List.lookup q.1 (old.map (fun p => (p.1, secUpdate cs p.1 p.2))) with
    | some w => simp [Option.or]
    | none =>
      cases h3 : List.lookup q.1 (cs.filter (fun q' => (List.lookup q'.1 old).isNone)) with
      | none => rw [h3] at hs; simp at hs
      | some w => simp [Option.or, h3]

theorem updateSections_absorb (old cs : List (String × List (String × String)))
    (h : (cs.map Prod.fst).Nodup) :
    updateSections (updateSections old cs) cs = updateSections old cs := by
  have hfilter : cs.filter (fun q => (List.lookup q.1 (updateSections old cs)).isNone) = [] := by
    rw [List.filter_eq_nil_iff]
    intro q hq
    have hs := lookup_updateSections_isSome old cs hq
    cases hh : List.lookup q.1 (updateSections old cs) with
    | none => rw [hh] at hs; simp at hs
    | some w => simp [hh]
  have hmap : (updateSections old cs).map (fun p => (p.1, secUpdate cs p.1 p.2)) =
      updateSections old cs := by
    unfold updateSections
    rw [List.map_append, List.map_map]
    congr 1
    · exact List.map_congr_left fun p _ => by
        simp [Function.comp, secUpdate_idem]
    · rw [List.map_congr_left (g := id), List.map_id]
      intro q hqf
      have hq : q ∈ cs := List.mem_of_mem_filter hqf
      have hlq : List.lookup q.1 cs = some q.2 := lookup_eq_of_nodup h hq
      simp [secUpdate, hlq, mergeKVs_self]
  calc updateSections (updateSections old cs) cs
      = (updateSections old cs).map (fun p => (p.1, secUpdate cs p.1 p.2)) ++
          cs.filter (fun q => (List.lookup q.1 (updateSections old cs)).isNone) := rfl
    _ = updateSections old cs ++ [] := by rw [hmap, hfilter]
    _ = updateSections old cs := List.append_nil _

theorem readIni_absorb (st : IniState) (c : IniState)
    (h : (c.sections.map Prod.fst).Nodup) :
    readIni (readIni st (some c)) (some c) = readIni st (some c) := by
  simp [readIni, IniState.mk.injEq, mergeKVs_absorb, updateSections_absorb _ _ h]

theorem readIni_empty (c : IniState) : readIni emptyIni (some c) = c := by
  cases c with
  | mk d s =>
    simp [readIni, emptyIni, mergeKVs, updateSections, List.lookup]

/-! ### Helper lemmas about the substring test and the boolean coercion -/

theorem listPre_iff (s l : List Char) : listPre s l = true ↔ ∃ t, l = s ++ t := by
  induction s generalizing l with
  | nil =>
    constructor
    · intro _; exact ⟨l, rfl⟩
    · intro _; rfl
  | cons a s ih =>
    cases l with
    | nil =>
      constructor
      · intro h; exact absurd h (by simp [listPre])
      · rintro ⟨t, ht⟩; exact absurd ht (by simp)
    | cons b t =>
      constructor
      · intro h
        simp only [listPre, Bool.and_eq_true] at h
        rcases h with ⟨hab, hpre⟩
        rcases (ih t).mp hpre with ⟨u, hu⟩
        exact ⟨u, by rw [hu, eq_of_beq hab]; rfl⟩
      · rintro ⟨u, hu⟩
        injection hu with h1 h2
        simp only [listPre, Bool.and_eq_true]
        exact ⟨by rw [h1]; exact beq_self_eq_true a, (ih t).mpr ⟨u, h2⟩⟩

theorem listContains_iff (sub l : List Char) :
    listContains sub l = true ↔ ∃ p q, l = p ++ (sub ++ q) := by
  induction l with
  | nil =>
    constructor
    · intro h
      rcases (listPre_iff _ _).mp (by simpa [listContains] using h) with ⟨t, ht⟩
      exact ⟨[], t, by simpa using ht⟩
    · rintro ⟨p, q, hpq⟩
      have hpq' := hpq.symm
      rw [List.append_eq_nil] at hpq'
      rcases hpq' with ⟨hp, hsq⟩
      rw [List.append_eq_nil] at hsq
      rcases hsq with ⟨hsub, hq⟩
      subst hsub
      rfl
  | cons c t ih =>
    constructor
    · intro h
      cases hp : listPre sub (c :: t) with
      | true =>
        rcases (listPre_iff _ _).mp hp with ⟨u, hu⟩
        exact ⟨[], u, by simp [hu]⟩
      | false =>
        simp only [listContains, hp, Bool.false_or] at h
        rcases ih.mp h with ⟨p, q, hpq⟩
        exact ⟨c :: p, q, by simp [hpq]⟩
    · rintro ⟨p, q, hpq⟩
      cases p with
      | nil =>
        have hpre : listPre sub (c :: t) = true :=
          (listPre_iff _ _).mpr ⟨q, by simpa using hpq⟩
        simp [listContains, hpre]
      | cons x p' =>
        simp [List.cons.injEq] at hpq
        have hrec : listContains sub t = true := ih.mpr ⟨p', q, hpq.2⟩
        simp [listContains, hrec]

theorem strContains_iff (s sub : String) : strContains s sub = true ↔ SubstrOf sub s := by
  unfold strContains SubstrOf
  rw [listContains_iff]
  constructor
  · rintro ⟨p, q, hpq⟩
    refine ⟨⟨p⟩, ⟨q⟩, ?_⟩
    cases s with
    | mk sd =>
      simp only at hpq
      rw [hpq]
      rfl
  · rintro ⟨pre, post, hps⟩
    refine ⟨pre.data, post.data, ?_⟩
    rw [hps]
    simp [String.data_append]

theorem substr_of_true {s sub : String} (h : strContains s sub = true) : SubstrOf sub s :=
  (strContains_iff s sub).mp h

theorem not_substr_of_false {s sub : String} (h : strContains s sub = false) :
    ¬ SubstrOf sub s := fun hs => by
  rw [(strContains_iff s sub).mpr hs] at h
  exact Bool.noConfusion h

theorem typeSupported_eq (name : String) :
    typeSupported name = (strContains name "csv" || strContains name "txt") := by
  simp [typeSupported, supported_types]

theorem typeSupported_of_substr {name : String}
    (h : SubstrOf "csv" name ∨ SubstrOf "txt" name) : typeSupported name = true := by
  rw [typeSupported_eq]
  rcases h with h | h
  · rw [(strContains_iff name "csv").mpr h]; rfl
  · rw [(strContains_iff name "txt").mpr h]; simp

theorem typeSupported_false_of_not {name : String}
    (h1 : ¬ SubstrOf "csv" name) (h2 : ¬ SubstrOf "txt" name) :
    typeSupported name = false := by
  rw [typeSupported_eq]
  have hc : strContains name "csv" = false := by
    cases hcv : strContains name "csv" with
    | false => rfl
    | true => exact absurd (substr_of_true hcv) h1
  have ht : strContains name "txt" = false := by
    cases htv : strContains name "txt" with
    | false => rfl
    | true => exact absurd (substr_of_true htv) h2
  rw [hc, ht]; rfl

theorem textDecode_cons_ne (c : Char) (t : List Char) (h : c ≠ '\r') :
    textDecode (c :: t) = c :: textDecode t := by
  simp [textDecode, h]

theorem textEncode_cons_ne (ls : List Char) (c : Char) (t : List Char) (h : c ≠ '\n') :
    textEncode ls (c :: t) = c :: textEncode ls t := by
  simp [textEncode, h]

theorem textDecode_textEncode (linesep : List Char)
    (hsep : linesep = ['\n'] ∨ linesep = ['\r', '\n'])
    (cs : List Char) (hcr : '\r' ∉ cs) :
    textDecode (textEncode linesep cs) = cs := by
  induction cs with
  | nil => rcases hsep with h | h <;> subst h <;> rfl
  | cons c t ih =>
    have hcr' : '\r' ∉ t := fun hh => hcr (List.mem_cons_of_mem _ hh)
    have hc : c ≠ '\r' := fun hh => hcr (hh ▸ List.mem_cons_self c t)
    by_cases hn : c = '\n'
    · subst hn
      rcases hsep with h | h <;> subst h
      · rw [show textEncode ['\n'] ('\n' :: t) = '\n' :: textEncode ['\n'] t from rfl,
          textDecode_cons_ne '\n' _ (by decide), ih hcr']
      · rw [show textEncode ['\r', '\n'] ('\n' :: t) =
            '\r' :: '\n' :: textEncode ['\r', '\n'] t from rfl,
          show textDecode ('\r' :: '\n' :: textEncode ['\r', '\n'] t) =
            '\n' :: textDecode (textEncode ['\r', '\n'] t) from rfl,
          ih hcr']
    · rw [textEncode_cons_ne _ _ _ hn, textDecode_cons_ne _ _ hc, ih hcr']

theorem pyTextRead_pyTextWrite (linesep : String)
    (hsep : linesep = "\n" ∨ linesep = "\r\n")
    (content : String) (hcr : '\r' ∉ content.data) :
    pyTextRead (pyTextWrite linesep content) = content := by
  unfold pyTextRead pyTextWrite
  have hd : linesep.data = ['\n'] ∨ linesep.data = ['\r', '\n'] := by
    rcases hsep with h | h <;> subst h
    · exact Or.inl rfl
    · exact Or.inr rfl
  rw [textDecode_textEncode linesep.data hd content.data hcr]

theorem convert_spec (raw : String) :
    (pyStrip (pyLower raw) = "true" → convert raw = .bool true) ∧
    (pyStrip (pyLower raw) = "false" → convert raw = .bool false) ∧
    (pyStrip (pyLower raw) ≠ "true" → pyStrip (pyLower raw) ≠ "false" →
      convert raw = .str raw) := by
  refine ⟨fun h => by simp [convert, h], fun h => ?_, fun h1 h2 => by simp [convert, h1, h2]⟩
  have hne : pyStrip (pyLower raw) ≠ "true" := by rw [h]; decide
  simp [convert, hne, h]

/-! ### Claim theorems -/

/-- Claim C1: on an HTTP 200 response, `upload_file` returns the failure dict
`{"result": "fail", "reason": body["errorMessage"]}` exactly when the body has
an `errorType` key, and `{"result": "success"}` otherwise; `download_file`
likewise fails exactly when `errorType` is present, and otherwise returns
`{"result": "success", "data": body["Body"]}`. -/
theorem s3_status200_result_contract (r : HttpResponse) (h200 : r.status = 200) :
    (∀ msg, List.lookup "errorMessage" r.body = some msg →
      ((hasKey r.body "errorType" = true ↔
        handleUploadResponse r = .ok (some [("result", "fail"), ("reason", msg)])) ∧
       (hasKey r.body "errorType" = true ↔
        handleDownloadResponse r = .ok (some [("result", "fail"), ("reason", msg)])))) ∧
    (hasKey r.body "errorType" = false →
      handleUploadResponse r = .ok (some [("result", "success")]) ∧
      ∀ b, List.lookup "Body" r.body = some b →
        handleDownloadResponse r = .ok (some [("result", "success"), ("data", b)])) := by
  constructor
  · intro msg hmsg
    constructor
    · cases he : hasKey r.body "errorType" with
      | true => simp [handleUploadResponse, h200, he, hmsg]
      | false => simp [handleUploadResponse, h200, he]
    · cases he : hasKey r.body "errorType" with
      | true => simp [handleDownloadResponse, h200, he, hmsg]
      | false =>
        cases hb : List.lookup "Body" r.body with
        | some b => simp [handleDownloadResponse, h200, he, hb]
        | none => simp [handleDownloadResponse, h200, he, hb]
  · intro he
    refine ⟨by simp [handleUploadResponse, h200, he], fun b hb => ?_⟩
    simp [handleDownloadResponse, h200, he, hb]

/-- Witness for C1 at a concrete 200 response carrying an error payload. -/
theorem s3_status200_result_contract_witness :
    handleUploadResponse ⟨200, [("errorType", "X"), ("errorMessage", "Y")]⟩ =
      .ok (some [("result", "fail"), ("reason", "Y")]) :=
  (((s3_status200_result_contract ⟨200, [("errorType", "X"), ("errorMessage", "Y")]⟩
      rfl).1 "Y" (by decide)).1).mp (by decide)

/-- Claim C3: on any non-200 status, `upload_file` and `download_file` produce
no result dict and raise nothing — both fall through and return Python `None`. -/
theorem s3_non200_no_result (r : HttpResponse) (h : r.status ≠ 200) :
    handleUploadResponse r = .ok none ∧ handleDownloadResponse r = .ok none := by
  constructor <;> simp [handleUploadResponse, handleDownloadResponse, h]

/-- Witness for C3 at a concrete 404 response. -/
theorem s3_non200_no_result_witness :
    handleUploadResponse ⟨404, [("errorType", "X")]⟩ = .ok none ∧
    handleDownloadResponse ⟨404, [("errorType", "X")]⟩ = .ok none :=
  s3_non200_no_result ⟨404, [("errorType", "X")]⟩ (by decide)

/-- Claim C9: on a 200 response whose body has neither `errorType` nor `Body`,
`download_file` does not return a result: the `response["Body"]` extraction
raises `KeyError`. -/
theorem download_missing_body_keyerror (r : HttpResponse) (h200 : r.status = 200)
    (hnoerr : hasKey r.body "errorType" = false)
    (hnobody : List.lookup "Body" r.body = none) :
    handleDownloadResponse r = .error .keyError := by
  simp [handleDownloadResponse, h200, hnoerr, hnobody]

/-- Witness for C9 at the empty 200 body. -/
theorem download_missing_body_keyerror_witness :
    handleDownloadResponse ⟨200, []⟩ = .error .keyError :=
  download_missing_body_keyerror ⟨200, []⟩ rfl rfl rfl

/-- Claim C7: `read_file` and `write_file` raise `TypeError` for every file
name containing neither `"csv"` nor `"txt"` as a substring, and never raise
`TypeError` for a name containing one of them anywhere in the name
(substring match, not suffix match). -/
theorem file_type_gate (fs : FileSystem) (linesep name loc content : String) :
    (¬ SubstrOf "csv" name ∧ ¬ SubstrOf "txt" name →
      read_file fs name loc = .error .typeError ∧
      write_file fs linesep name loc content = .error .typeError) ∧
    (SubstrOf "csv" name ∨ SubstrOf "txt" name →
      read_file fs name loc ≠ .error .typeError ∧
      write_file fs linesep name loc content ≠ .error .typeError) := by
  constructor
  · rintro ⟨h1, h2⟩
    have hfalse := typeSupported_false_of_not h1 h2
    exact ⟨by simp [read_file, hfalse], by simp [write_file, hfalse]⟩
  · intro h
    have htrue := typeSupported_of_substr h
    constructor
    · simp only [read_file, htrue, if_true]
      cases hfs : fs (filePath loc name) <;> simp
    · simp [write_file, htrue]

/-- Witness for C7: an unsupported name is rejected, a `.txt` name is not. -/
theorem file_type_gate_witness :
    read_file (fun _ => none) "a.pdf" "" = .error .typeError ∧
    write_file (fun _ => none) "\n" "a.txt" "" "c" ≠ .error .typeError :=
  ⟨((file_type_gate (fun _ => none) "\n" "a.pdf" "" "").1
      ⟨not_substr_of_false (by decide), not_substr_of_false (by decide)⟩).1,
   ((file_type_gate (fun _ => none) "\n" "a.txt" "" "c").2
      (Or.inr (substr_of_true (by decide)))).2⟩

/-- Counterexample to C8 as stated: content containing a bare carriage return
does not survive the text-mode round trip — `"a\rb"` is stored unchanged (it
holds no `'\n'` for the write-side translation) but universal-newline reading
turns the `'\r'` into `'\n'`, so reading back yields `"a\nb"`, not the
written content. -/
theorem carriage_return_roundtrip_cex :
    writeThenRead (fun _ => none) "\n" "a.txt" "" "a\rb" = .ok "a\nb" ∧
    ("a\nb" : String) ≠ "a\rb" := by
  refine ⟨by decide, by decide⟩

/-- Claim C8 (amended): for every file name containing `"csv"` or `"txt"`,
every location the file system can store (the model treats every location as
an existing directory), and every content string containing no carriage
return, writing the content and reading the same name back from the same
location yields exactly that content, under either platform line separator
(`"\n"` or `"\r\n"`); content containing `'\r'` is newline-normalized by the
text-mode round trip instead. -/
theorem write_read_roundtrip (fs : FileSystem) (linesep name loc content : String)
    (hsep : linesep = "\n" ∨ linesep = "\r\n")
    (hcr : '\r' ∉ content.data)
    (h : SubstrOf "csv" name ∨ SubstrOf "txt" name) :
    ∃ fs', write_file fs linesep name loc content =
        .ok (fs', [("successful", "successful")]) ∧
      read_file fs' name loc = .ok content := by
  have htrue := typeSupported_of_substr h
  refine ⟨fun p => if p = filePath loc name then some (pyTextWrite linesep content)
    else fs p, ?_, ?_⟩
  · simp [write_file, htrue]
  · simp [read_file, htrue, pyTextRead_pyTextWrite linesep hsep content hcr]

/-- Witness for C8's amended theorem at a concrete csv name, a Windows line
separator, and content with a line feed but no carriage return. -/
theorem write_read_roundtrip_witness :
    ∃ fs', write_file (fun _ => none) "\r\n" "d.csv" "L" "a\nb" =
        .ok (fs', [("successful", "successful")]) ∧
      read_file fs' "d.csv" "L" = .ok "a\nb" :=
  write_read_roundtrip (fun _ => none) "\r\n" "d.csv" "L" "a\nb"
    (Or.inr rfl) (by decide) (Or.inl (substr_of_true (by decide)))

/-- Claim C10: a successful `write_file` returns exactly
`{"successful": "successful"}` — its only key is the string `"successful"`,
not `"result"`, unlike the `{"result": ...}` dicts the remote upload and
download handlers return. -/
theorem write_success_result_shape (fs : FileSystem) (linesep name loc content : String)
    (h : typeSupported name = true) :
    ∃ fs', write_file fs linesep name loc content =
        .ok (fs', [("successful", "successful")]) ∧
      List.lookup "result" [("successful", "successful")] = none ∧
      List.lookup "successful" [("successful", "successful")] = some "successful" ∧
      handleUploadResponse ⟨200, []⟩ = .ok (some [("result", "success")]) ∧
      handleDownloadResponse ⟨200, [("Body", "B")]⟩ =
        .ok (some [("result", "success"), ("data", "B")]) :=
  ⟨fun p => if p = filePath loc name then some (pyTextWrite linesep content) else fs p,
    by simp [write_file, h], by decide, by decide, by decide, by decide⟩

/-- Witness for C10 at a concrete csv name. -/
theorem write_success_result_shape_witness :
    ∃ fs', write_file (fun _ => none) "\n" "x.csv" "" "c" =
        .ok (fs', [("successful", "successful")]) ∧
      List.lookup "result" [("successful", "successful")] = none ∧
      List.lookup "successful" [("successful", "successful")] = some "successful" ∧
      handleUploadResponse ⟨200, []⟩ = .ok (some [("result", "success")]) ∧
      handleDownloadResponse ⟨200, [("Body", "B")]⟩ =
        .ok (some [("result", "success"), ("data", "B")]) :=
  write_success_result_shape (fun _ => none) "\n" "x.csv" "" "c" (by decide)

theorem convert_closure {v : PyVal} (raw : String) (hv : v = convert raw) :
    v = convert raw ∧
    (pyStrip (pyLower raw) = "true" → v = .bool true) ∧
    (pyStrip (pyLower raw) = "false" → v = .bool false) ∧
    (pyStrip (pyLower raw) ≠ "true" → pyStrip (pyLower raw) ≠ "false" → v = .str raw) := by
  obtain ⟨c1, c2, c3⟩ := convert_spec raw
  exact ⟨hv, fun ht => hv.trans (c1 ht), fun hf => hv.trans (c2 hf),
    fun h1 h2 => hv.trans (c3 h1 h2)⟩

/-- Claim C4 (amended): for every configuration file yielding at least one
named section, `get_config_as_dictionary` on a fresh instance succeeds, and
every value of the returned two-level mapping is the coercion of a raw value
of the file: raw values equal to `"true"` / `"false"` after lowercasing and
stripping surrounding whitespace become the corresponding booleans, every
other raw value is returned as its unchanged string. -/
theorem config_bool_coercion (c : IniState) (h : c.sections ≠ []) :
    ∃ d, freshParse (some c) = .ok d ∧
      ∀ sec ∈ d, ∀ kv ∈ sec.2, ∃ raw, raw ∈ rawValues c ∧
        kv.2 = convert raw ∧
        (pyStrip (pyLower raw) = "true" → kv.2 = .bool true) ∧
        (pyStrip (pyLower raw) = "false" → kv.2 = .bool false) ∧
        (pyStrip (pyLower raw) ≠ "true" → pyStrip (pyLower raw) ≠ "false" →
          kv.2 = .str raw) := by
  rw [freshParse, readIni_empty]
  have hlen : ¬ (c.sections.length + 1 ≤ 1) := by
    cases hs : c.sections with
    | nil => exact absurd hs h
    | cons a t => simp
  rw [get_config_as_dictionary, if_neg hlen]
  refine ⟨_, rfl, ?_⟩
  intro sec hsec kv hkv
  rcases List.mem_cons.mp hsec with hdef | hmap
  · rw [hdef] at hkv
    obtain ⟨p, hp, hpe⟩ := List.mem_map.mp hkv
    have hkv2 : kv.2 = convert p.2 := by rw [← hpe]
    exact ⟨p.2,
      List.mem_append.mpr (Or.inl (List.mem_map.mpr ⟨p, hp, rfl⟩)),
      convert_closure p.2 hkv2⟩
  · obtain ⟨s, hs, hse⟩ := List.mem_map.mp hmap
    rw [← hse] at hkv
    obtain ⟨p, hp, hpe⟩ := List.mem_map.mp hkv
    have hkv2 : kv.2 = convert p.2 := by rw [← hpe]
    rcases mem_of_mem_mergeKVs hp with hpd | hps
    · exact ⟨p.2,
        List.mem_append.mpr (Or.inl (List.mem_map.mpr ⟨p, hpd, rfl⟩)),
        convert_closure p.2 hkv2⟩
    · refine ⟨p.2, List.mem_append.mpr (Or.inr ?_), convert_closure p.2 hkv2⟩
      exact List.mem_flatten.mpr ⟨s.2.map Prod.snd,
        List.mem_map.mpr ⟨s, hs, rfl⟩, List.mem_map.mpr ⟨p, hps, rfl⟩⟩

/-- Witness for C4's amended theorem at a one-section file whose values are a
boolean-looking string and a plain string. -/
theorem config_bool_coercion_witness :
    ∃ d, freshParse (some ⟨[], [("s", [("flag", " True "), ("k", "v")])]⟩) = .ok d ∧
      ∀ sec ∈ d, ∀ kv ∈ sec.2, ∃ raw,
        raw ∈ rawValues ⟨[], [("s", [("flag", " True "), ("k", "v")])]⟩ ∧
        kv.2 = convert raw ∧
        (pyStrip (pyLower raw) = "true" → kv.2 = .bool true) ∧
        (pyStrip (pyLower raw) = "false" → kv.2 = .bool false) ∧
        (pyStrip (pyLower raw) ≠ "true" → pyStrip (pyLower raw) ≠ "false" →
          kv.2 = .str raw) :=
  config_bool_coercion ⟨[], [("s", [("flag", " True "), ("k", "v")])]⟩ (by simp)

/-- Counterexample to C4 as stated: a file with two total entries, both in the
implicit DEFAULT section, makes `parse` raise `FileNotFoundError` instead of
returning a mapping — the guard counts sections, not entries. -/
theorem config_two_default_entries_cex :
    totalEntries ⟨[("a", "x"), ("b", "y")], []⟩ = 2 ∧
    freshParse (some ⟨[("a", "x"), ("b", "y")], []⟩) = .error .fileNotFoundError := by
  refine ⟨by decide, by decide⟩

/-- Claim C5 (amended): a fresh-instance `parse` raises `FileNotFoundError`
exactly when the read leaves no named section — in particular for every
nonexistent path, and for files whose entries all sit in the implicit DEFAULT
section — regardless of the number of key-value entries; a missing file and a
sectionless file fail identically. -/
theorem config_notfound_iff_no_sections (f : IniState) :
    freshParse none = .error .fileNotFoundError ∧
    (freshParse (some f) = .error .fileNotFoundError ↔ f.sections = []) := by
  refine ⟨rfl, ?_⟩
  rw [freshParse, readIni_empty]
  rcases f with ⟨d, s⟩
  cases s with
  | nil => simp [get_config_as_dictionary]
  | cons a t =>
    have hc : ¬ ((a :: t).length + 1 ≤ 1) := by simp
    rw [get_config_as_dictionary]
    simp only at hc ⊢
    rw [if_neg hc]
    simp

/-- Counterexample to C5 as stated: an existing file with a single key-value
entry (fewer than two) parses successfully instead of raising
`FileNotFoundError`, because it has one named section. -/
theorem config_single_entry_parses_cex :
    totalEntries ⟨[], [("s", [("k", "v")])]⟩ = 1 ∧
    freshParse (some ⟨[], [("s", [("k", "v")])]⟩) =
      .ok [("DEFAULT", []), ("s", [("k", .str "v")])] := by
  refine ⟨by decide, by decide⟩

/-- Claim C6 (amended): a `get_config_as_dictionary` call's result is a pure
function of the instance's accumulated parser state, but that state
accumulates every file read — so the second call's result depends on earlier
reads, not only on the file passed to it.  Re-reading the same file (with
distinct section names) is idempotent: the second call returns the same
parser state and the same result as the first. -/
theorem parse_same_file_idempotent (st : IniState) (c : IniState)
    (h : (c.sections.map Prod.fst).Nodup) :
    parseCall (parseCall st (some c)).1 (some c) = parseCall st (some c) := by
  have hr := readIni_absorb st c h
  simp [parseCall, hr]

/-- Witness for C6's amended theorem at a concrete two-section file. -/
theorem parse_same_file_idempotent_witness :
    parseCall (parseCall emptyIni (some ⟨[], [("s", [("k", "v")]), ("t", [])]⟩)).1
        (some ⟨[], [("s", [("k", "v")]), ("t", [])]⟩) =
      parseCall emptyIni (some ⟨[], [("s", [("k", "v")]), ("t", [])]⟩) :=
  parse_same_file_idempotent emptyIni ⟨[], [("s", [("k", "v")]), ("t", [])]⟩ (by decide)

/-- Counterexample to C6 as stated: after a first call read a file with
section `a`, a second call on the same instance for a file with section `b`
returns a dictionary still containing section `a` — not what a fresh instance
returns for the second file. -/
theorem parse_state_leak_cex :
    (parseCall (parseCall emptyIni (some ⟨[], [("a", [("k", "v")])]⟩)).1
        (some ⟨[], [("b", [("k2", "w")])]⟩)).2 ≠
    (parseCall emptyIni (some ⟨[], [("b", [("k2", "w")])]⟩)).2 := by
  decide

/-- Claim C2 (amended): for an instance whose token field is empty, when the
configuration parse succeeds and yields a truthy token value, the first
upload/download call triggers exactly one parse and assigns the token once,
and every later call triggers zero additional parses and leaves the stored
token unchanged, whatever results the remote endpoint returns. -/
theorem s3_token_cached_after_success (cfgFile : Option IniState) (v : PyVal)
    (hv : set_up_auth_token cfgFile = .ok v) (ht : pyTruthy (some v) = true)
    (st0 : S3State) (h0 : st0.auth_token = none)
    (c : S3Call) (rest : List S3Call) :
    (s3Step cfgFile st0 c).1 = ⟨some v⟩ ∧
    (s3Step cfgFile st0 c).2.1 = 1 ∧
    s3Run cfgFile ⟨some v⟩ rest = (⟨some v⟩, 0) := by
  refine ⟨by simp [s3Step, h0, hv, pyTruthy], by simp [s3Step, h0, hv, pyTruthy], ?_⟩
  induction rest with
  | nil => rfl
  | cons c' cs ih =>
    have hst1 : (s3Step cfgFile ⟨some v⟩ c').1 = ⟨some v⟩ := by simp [s3Step, ht]
    have hst2 : (s3Step cfgFile ⟨some v⟩ c').2.1 = 0 := by simp [s3Step, ht]
    simp [s3Run, hst1, hst2, ih]

/-- Witness for C2's amended theorem: a config resolving to the non-empty
token `"tok"`, one first call, then a later call against a failing endpoint. -/
theorem s3_token_cached_witness :
    (s3Step (some ⟨[], [("authorizers", [("auth-token", "tok")])]⟩) ⟨none⟩
        ⟨.upload, ⟨200, []⟩⟩).1 = ⟨some (.str "tok")⟩ ∧
    (s3Step (some ⟨[], [("authorizers", [("auth-token", "tok")])]⟩) ⟨none⟩
        ⟨.upload, ⟨200, []⟩⟩).2.1 = 1 ∧
    s3Run (some ⟨[], [("authorizers", [("auth-token", "tok")])]⟩) ⟨some (.str "tok")⟩
        [⟨.download, ⟨500, []⟩⟩] = (⟨some (.str "tok")⟩, 0) :=
  s3_token_cached_after_success (some ⟨[], [("authorizers", [("auth-token", "tok")])]⟩)
    (.str "tok") (by decide) (by decide) ⟨none⟩ rfl ⟨.upload, ⟨200, []⟩⟩
    [⟨.download, ⟨500, []⟩⟩]

/-- Counterexample to C2 as stated: a configuration whose `auth-token` value
is the empty string is parsed and assigned on the first call, but the stored
token is falsy, so the second call on the same instance triggers another
configuration parse (two parses across two calls, not one). -/
theorem s3_token_reparse_cex :
    (s3Step (some ⟨[], [("authorizers", [("auth-token", "")])]⟩) (S3init none)
        ⟨.upload, ⟨200, []⟩⟩).2.1 = 1 ∧
    (s3Step (some ⟨[], [("authorizers", [("auth-token", "")])]⟩) (S3init none)
        ⟨.upload, ⟨200, []⟩⟩).1 = ⟨some (.str "")⟩ ∧
    (s3Run (some ⟨[], [("authorizers", [("auth-token", "")])]⟩) (S3init none)
        [⟨.upload, ⟨200, []⟩⟩, ⟨.upload, ⟨200, []⟩⟩]).2 = 2 := by
  refine ⟨by decide, by decide, by decide⟩
